import Mathlib

/-!
Shallow embedding of the petclinic triage / queue subsystem.

Sources embedded here:
  * `src/appointments/priority_analyzer.py` (keyword fallback classifier)
  * `src/appointments/json_symptom_matcher.py` (pattern library matcher)
  * `src/appointments/ai_bridge.py` (tiered symptom classification entry point)
  * `src/appointments/models.py` (QueueStatus, EmergencyCase.save)
  * `src/appointments/views.py` (booking availability gate, emergency queue
    listing, claim_emergency, check_in, call_next_patient)

Machine integers are modelled as `Nat` (all counters/tokens in the source are
non-negative and never near overflow; Python ints are unbounded anyway).
Dates are modelled as day indices (`Nat`), with `weekday d = d % 7`.
Database tables are modelled as lists of records, queries as list operations.
External collaborators (the Groq service, `difflib.SequenceMatcher.ratio`)
are parameters of the embedding, as in the source they are library calls
outside this repository.
-/

namespace PetClinic

/-! ## String utilities mirroring the Python primitives used by the source -/

/-- The apostrophe character, used inside several source keyword strings. -/
def apC : Char := Char.ofNat 39

/-- The apostrophe as a one-character string. -/
def apS : String := String.mk [apC]

/-- Python `str.lower()` restricted to the ASCII texts the source handles. -/
def pyLower (s : String) : String := String.mk (s.toList.map Char.toLower)

/-- Python `str.strip()`: drop whitespace from both ends. -/
def pyStrip (s : String) : String :=
  String.mk (((s.toList.dropWhile Char.isWhitespace).reverse.dropWhile
    Char.isWhitespace).reverse)

/-- List-of-chars version of Python `str.startswith`. -/
def startsWithChars : List Char → List Char → Bool
  | [], _ => true
  | _ :: _, [] => false
  | a :: as, b :: bs => a == b && startsWithChars as bs

/-- Python `s.startswith(pre)` on strings. -/
def strStartsWith (s pre : String) : Bool :=
  startsWithChars pre.toList s.toList

/-- List-of-chars version of Python substring containment (`needle in hay`). -/
def hasInfixChars (needle : List Char) : List Char → Bool
  | [] => needle.isEmpty
  | c :: rest => startsWithChars needle (c :: rest) || hasInfixChars needle rest

/-- Python `needle in hay` on strings. -/
def strContains (hay needle : String) : Bool :=
  hasInfixChars needle.toList hay.toList

/-- Word accumulator for `pyWords`; the first argument is the reversed
current word. -/
def splitWordsAux : List Char → List Char → List String
  | acc, [] => if acc.isEmpty then [] else [String.mk acc.reverse]
  | acc, c :: rest =>
    if c.isWhitespace then
      if acc.isEmpty then splitWordsAux [] rest
      else String.mk acc.reverse :: splitWordsAux [] rest
    else splitWordsAux (c :: acc) rest

/-- Python `str.split()` with no argument: split on whitespace runs,
dropping empty pieces. -/
def pyWords (s : String) : List String :=
  splitWordsAux [] s.toList

/-- Python `sep.join(parts)`. -/
def joinSep (sep : String) : List String → String
  | [] => ""
  | [x] => x
  | x :: y :: rest => x ++ sep ++ joinSep sep (y :: rest)

/-- Left-to-right non-overlapping replacement on character lists
(Python `str.replace`); an empty pattern leaves the text unchanged. -/
def replaceChars : List Char → List Char → List Char → List Char
  | _, _, [] => []
  | [], _, cs => cs
  | p :: ps, rep, c :: rest =>
    if startsWithChars (p :: ps) (c :: rest) then
      rep ++ replaceChars (p :: ps) rep ((c :: rest).drop (p :: ps).length)
    else c :: replaceChars (p :: ps) rep rest
termination_by _ _ cs => cs.length
decreasing_by
  all_goals simp [List.length_drop]
  all_goals omega

/-- Python `s.replace(old, new)`. -/
def pyReplace (s old new : String) : String :=
  String.mk (replaceChars old.toList new.toList s.toList)

/-- Splitter for `pySplitOn` (non-empty separator); the second argument is
the reversed current piece. -/
def splitOnAux : List Char → List Char → List Char → List (List Char)
  | _, acc, [] => [acc.reverse]
  | [], acc, cs => [acc.reverse ++ cs]
  | s :: ss, acc, c :: rest =>
    if startsWithChars (s :: ss) (c :: rest) then
      acc.reverse :: splitOnAux (s :: ss) [] ((c :: rest).drop (s :: ss).length)
    else splitOnAux (s :: ss) (c :: acc) rest
termination_by _ _ cs => cs.length
decreasing_by
  all_goals simp [List.length_drop]
  all_goals omega

/-- Python `s.split(sep)` for a non-empty separator. -/
def pySplitOn (s sep : String) : List String :=
  if sep.toList.isEmpty then [s]
  else (splitOnAux sep.toList [] s.toList).map (fun l => String.mk l)

/-- Byte-wise (code-point) string comparison on character lists: the order a
SQL backend applies to ASCII `CharField` values. -/
def ltChars : List Char → List Char → Bool
  | [], [] => false
  | [], _ :: _ => true
  | _ :: _, [] => false
  | a :: as, b :: bs =>
    if a.toNat = b.toNat then ltChars as bs else a.toNat < b.toNat

/-- Byte-wise string comparison. -/
def strLt (a b : String) : Bool :=
  ltChars a.toList b.toList

/-! ## Priority levels (`Appointment.PRIORITY_LEVELS` in `models.py`) -/

/-- Priority levels used across the triage pipeline. -/
inductive Priority where
  | low
  | normal
  | high
  | emergency
deriving DecidableEq, Repr

/-! ## `priority_analyzer.py`: regex fragment matcher

The four `SEVERITY_PATTERNS` regexes consulted by `analyze_priority` use only
literal text, alternation groups, an optional trailing `s?` and `\d+`.  Each
regex is embedded as the set of its alternation branches, a branch being a
sequence of literal segments and `digits` (one or more digit characters);
`re.search` semantics is "some branch matches at some position".  A trailing
`s?` before the end of a branch is dropped: under `re.search`, matching with
the optional `s` implies matching without it.  -/

/-- One segment of an expanded regex branch. -/
inductive Seg where
  | lit (cs : List Char)
  | digits
deriving DecidableEq, Repr

/-- Literal regex segment built from a string. -/
def lseg (s : String) : Seg := .lit s.toList

/-- Size of a segment list: recursion depth bound for the matcher. -/
def segsSize : List Seg → Nat
  | [] => 0
  | .lit cs :: rest => cs.length + 1 + segsSize rest
  | .digits :: rest => 1 + segsSize rest

/-- Fuelled matcher (structural recursion on the fuel so the kernel can
evaluate it).  Every recursive call strictly decreases
`segsSize segs + cs.length`, so fuel `segsSize segs + cs.length + 1` never
runs out and the `0`-fuel branch is unreachable from `segsMatchAt`. -/
def segsMatchAtFuel : Nat → List Seg → List Char → Bool
  | 0, _, _ => false
  | _ + 1, [], _ => true
  | f + 1, .lit [] :: rest, cs => segsMatchAtFuel f rest cs
  | _ + 1, .lit (_ :: _) :: _, [] => false
  | f + 1, .lit (a :: as) :: rest, c :: cs =>
      a == c && segsMatchAtFuel f (.lit as :: rest) cs
  | _ + 1, .digits :: _, [] => false
  | f + 1, .digits :: rest, c :: cs =>
      c.isDigit && (segsMatchAtFuel f rest cs || segsMatchAtFuel f (.digits :: rest) cs)

/-- Match a branch (list of segments) at the start of the character list.
`digits` consumes one or more digit characters, trying every split, which is
equivalent to the backtracking existential semantics of `re.search`. -/
def segsMatchAt (segs : List Seg) (cs : List Char) : Bool :=
  segsMatchAtFuel (segsSize segs + cs.length + 1) segs cs

/-- Match a branch at any position (Python `re.search`). -/
def reSearch (segs : List Seg) : List Char → Bool
  | [] => segsMatchAt segs []
  | c :: rest => segsMatchAt segs (c :: rest) || reSearch segs rest

/-- An embedded regex: its source text plus its expanded branches. -/
structure RePat where
  src : String
  branches : List (List Seg)
deriving DecidableEq, Repr

/-- Search a pattern in a text: some expanded branch matches somewhere. -/
def reSearchPat (p : RePat) (text : String) : Bool :=
  p.branches.any (fun b => reSearch b text.toList)

/-! ## `priority_analyzer.py`: keyword tables (verbatim, in source order) -/

/-- `EMERGENCY_KEYWORDS` from `priority_analyzer.py`. -/
def EMERGENCY_KEYWORDS : List String := [
  "not breathing", "cant breathe", "can" ++ apS ++ "t breathe", "difficulty breathing",
  "choking", "suffocating", "gasping", "blue gums", "blue tongue",
  "severe bleeding", "heavy bleeding", "profuse bleeding", "blood loss",
  "hit by car", "accident", "trauma", "broken bone", "fracture",
  "deep wound", "puncture wound", "attacked by",
  "poisoned", "poison", "toxic", "ate poison", "rat poison",
  "antifreeze", "chocolate poisoning", "xylitol",
  "seizure", "convulsion", "collapse", "collapsed", "unconscious",
  "unresponsive", "not moving", "paralyzed", "cant walk", "can" ++ apS ++ "t walk",
  "bloat", "twisted stomach", "gastric torsion", "heatstroke",
  "heat stroke", "drowning", "electrocution", "snake bite", "bee sting allergy",
  "difficult labor", "dystocia", "stuck puppy", "stuck kitten",
  "prolonged labor", "birthing emergency",
  "snake bite", "snakebite", "snake bit", "bitten by snake",
  "spider bite", "scorpion sting", "venomous"]

/-- `HIGH_PRIORITY_KEYWORDS` from `priority_analyzer.py`. -/
def HIGH_PRIORITY_KEYWORDS : List String := [
  "severe pain", "extreme pain", "screaming", "crying in pain",
  "cant stand", "can" ++ apS ++ "t stand", "limping badly", "unable to walk",
  "vomiting blood", "blood in vomit", "bloody diarrhea",
  "continuous vomiting", "cant keep food down", "can" ++ apS ++ "t keep food down",
  "vomiting for hours", "severe vomiting", "projectile vomiting",
  "eye injury", "eye popped", "proptosis", "scratched eye",
  "eye swollen shut", "sudden blindness",
  "cant urinate", "can" ++ apS ++ "t urinate", "blocked", "straining to pee",
  "no urine", "bloody urine", "urinary blockage",
  "swollen face", "hives", "allergic reaction", "face swelling",
  "throat swelling", "anaphylaxis",
  "high fever", "very hot", "severe infection", "abscess burst",
  "pus", "infected wound", "septic",
  "not eating for days", "refuses food", "wont eat for 2 days",
  "hasnt eaten", "hasn" ++ apS ++ "t eaten", "anorexia"]

/-- `NORMAL_PRIORITY_KEYWORDS` from `priority_analyzer.py`. -/
def NORMAL_PRIORITY_KEYWORDS : List String := [
  "checkup", "check-up", "check up", "vaccination", "vaccine",
  "annual exam", "wellness", "routine", "regular visit",
  "booster", "shots", "immunization",
  "mild", "slight", "minor", "small", "little",
  "occasional", "sometimes", "started recently",
  "nail trim", "ear cleaning", "dental cleaning",
  "grooming", "bath", "matted fur"]

/-- `LOW_PRIORITY_KEYWORDS` from `priority_analyzer.py`. -/
def LOW_PRIORITY_KEYWORDS : List String := [
  "microchip", "microchipping", "health certificate",
  "travel certificate", "spay", "neuter", "elective surgery",
  "follow up", "follow-up", "recheck", "re-check",
  "medication refill", "refill", "prescription renewal",
  "behavioral consultation", "training advice",
  "diet advice", "nutrition consultation"]

/-- `SEVERITY_PATTERNS["EMERGENCY"]` from `priority_analyzer.py`. -/
def EMERGENCY_PATTERNS : List RePat := [
  { src := "not (breathing|moving|responding)",
    branches := [[lseg "not breathing"], [lseg "not moving"], [lseg "not responding"]] },
  { src := "(severe|heavy|profuse) bleeding",
    branches := [[lseg "severe bleeding"], [lseg "heavy bleeding"], [lseg "profuse bleeding"]] },
  { src := "(hit|struck) by (car|vehicle)",
    branches := [[lseg "hit by car"], [lseg "hit by vehicle"],
                 [lseg "struck by car"], [lseg "struck by vehicle"]] },
  { src := "(seizure|convulsion)s? (for|lasting)",
    branches := [[lseg "seizure for"], [lseg "seizure lasting"],
                 [lseg "seizures for"], [lseg "seizures lasting"],
                 [lseg "convulsion for"], [lseg "convulsion lasting"],
                 [lseg "convulsions for"], [lseg "convulsions lasting"]] },
  { src := "(collapse|passed out|unconscious)",
    branches := [[lseg "collapse"], [lseg "passed out"], [lseg "unconscious"]] }]

/-- `SEVERITY_PATTERNS["HIGH"]` from `priority_analyzer.py`. -/
def HIGH_PATTERNS : List RePat := [
  { src := "vomiting (blood|for \\d+ hours?)",
    branches := [[lseg "vomiting blood"],
                 [lseg "vomiting for ", .digits, lseg " hour"]] },
  { src := "(bloody|blood in) (stool|diarrhea|urine)",
    branches := [[lseg "bloody stool"], [lseg "bloody diarrhea"], [lseg "bloody urine"],
                 [lseg "blood in stool"], [lseg "blood in diarrhea"], [lseg "blood in urine"]] },
  { src := "(can" ++ apS ++ "t|cannot|unable to) (walk|stand|eat|urinate)",
    branches := [[.lit ("can" ++ apS ++ "t walk").toList], [.lit ("can" ++ apS ++ "t stand").toList],
                 [.lit ("can" ++ apS ++ "t eat").toList], [.lit ("can" ++ apS ++ "t urinate").toList],
                 [lseg "cannot walk"], [lseg "cannot stand"],
                 [lseg "cannot eat"], [lseg "cannot urinate"],
                 [lseg "unable to walk"], [lseg "unable to stand"],
                 [lseg "unable to eat"], [lseg "unable to urinate"]] },
  { src := "swollen (face|eye|throat)",
    branches := [[lseg "swollen face"], [lseg "swollen eye"], [lseg "swollen throat"]] },
  { src := "(severe|extreme|intense) pain",
    branches := [[lseg "severe pain"], [lseg "extreme pain"], [lseg "intense pain"]] },
  { src := "not eating for (\\d+) days?",
    branches := [[lseg "not eating for ", .digits, lseg " day"]] }]

/-! ## `priority_analyzer.py`: `analyze_priority` -/

/-- Keywords of a table that hit the (lowercased, stripped) text; mirrors the
keyword-collection loops of `analyze_priority`. -/
def kwHits (table : List String) (text : String) : List String :=
  table.filter (fun k => strContains text (pyLower k))

/-- Python `", ".join(matched_keywords[:3])`. -/
def joinTop3 (kws : List String) : String :=
  joinSep ", " (kws.take 3)

/-- Whether some pattern of a regex table hits the text. -/
def patHit (pats : List RePat) (text : String) : Bool :=
  (pats.find? (fun p => reSearchPat p text)).isSome

/-- `analyze_priority(description)` from `priority_analyzer.py`: returns
(priority, reason, matched keywords).  The scan order of the source is
EMERGENCY keywords, EMERGENCY regexes, HIGH keywords, HIGH regexes,
LOW keywords, NORMAL keywords, then the NORMAL default. -/
def analyze_priority (description : String) : Priority × String × List String :=
  if description = "" then (.normal, "No description provided", [])
  else
    let text := pyStrip (pyLower description)
    let ekws := kwHits EMERGENCY_KEYWORDS text
    if ekws ≠ [] then
      (.emergency, "Emergency symptoms detected: " ++ joinTop3 ekws, ekws)
    else match EMERGENCY_PATTERNS.find? (fun p => reSearchPat p text) with
    | some p => (.emergency, "Emergency pattern detected", [p.src])
    | none =>
      let hkws := kwHits HIGH_PRIORITY_KEYWORDS text
      if hkws ≠ [] then
        (.high, "Urgent symptoms detected: " ++ joinTop3 hkws, hkws)
      else match HIGH_PATTERNS.find? (fun p => reSearchPat p text) with
      | some p => (.high, "Urgent pattern detected", [p.src])
      | none =>
        let lkws := kwHits LOW_PRIORITY_KEYWORDS text
        if lkws ≠ [] then
          (.low, "Routine/follow-up visit: " ++ joinTop3 lkws, lkws)
        else
          let nkws := kwHits NORMAL_PRIORITY_KEYWORDS text
          if nkws ≠ [] then
            (.normal, "Standard appointment: " ++ joinTop3 nkws, nkws)
          else
            (.normal, "Standard priority - no urgent keywords detected", [])

/-! ## `json_symptom_matcher.py`: the pattern-library matcher

`difflib.SequenceMatcher(None, a, b).ratio()` is a Python standard-library
collaborator; it enters the embedding as the parameter `seqSim`.  The two JSON
data files are data, not code: they enter as the `symptomData` /
`assessmentData` parameters, with `none` modelling a failed load
(`load_json_file` returning `None`).  `assessment_result.json` is modelled as
an association list from `pet_id` to the assessment text; a missing or falsy
entry is `none`. -/

/-- Clinical severity tiers (`EmergencyCase.SEVERITY_LEVELS` in `models.py`). -/
inductive Severity where
  | critical
  | severe
  | moderate
  | mild
deriving DecidableEq, Repr

/-- `normalize_text` from `json_symptom_matcher.py`. -/
def normalize_text (text : String) : String :=
  joinSep " " (pyWords (pyLower text))

/-- The delimiter list of `extract_keywords`, in source order. -/
def KEYWORD_DELIMITERS : List String :=
  [",", ";", ".", " and ", " or ", " with ", "-", "/", "(", ")", "  "]

/-- `extract_keywords` from `json_symptom_matcher.py`: sequentially replace
each delimiter by a space, then split on whitespace; the Python `set` of
words is modelled as the deduplicated word list. -/
def extract_keywords (text : String) : List String :=
  let normalized := KEYWORD_DELIMITERS.foldl (fun s d => pyReplace s d " ") (pyLower text)
  (pyWords normalized).dedup

/-- `keyword_similarity` (Jaccard index) from `json_symptom_matcher.py`;
arguments are deduplicated word lists standing for the Python sets. -/
def keyword_similarity (k1 k2 : List String) : ℚ :=
  if k1 = [] ∨ k2 = [] then 0
  else
    let inter := (k1.filter (fun w => w ∈ k2)).length
    let uni := ((k1 ++ k2).dedup).length
    if uni = 0 then 0 else (inter : ℚ) / (uni : ℚ)

/-- `check_exact_match` from `json_symptom_matcher.py`. -/
def check_exact_match (user json : String) : Bool :=
  normalize_text user == normalize_text json

/-- `check_partial_match` from `json_symptom_matcher.py`. -/
def check_partial_match (user json : String) : Bool :=
  let un := normalize_text user
  let jn := normalize_text json
  strContains un jn || strContains jn un ||
    decide ((1 / 2 : ℚ) ≤ keyword_similarity (extract_keywords user) (extract_keywords json))

/-- One entry of `input_symptoms.json` (fields read by the matcher). -/
structure Entry where
  symptoms : String
  pet_id : String
deriving DecidableEq, Repr

/-- Match kind recorded by the matcher loop (`match_type` in the source). -/
inductive MType where
  | exactM
  | partialM
deriving DecidableEq, Repr

/-- Accumulator of the matcher loop: `best_match`, `best_match_score`,
`match_type`, initialised to `(None, 0, None)`. -/
structure MatchAcc where
  best : Option Entry
  score : ℚ
  mtype : Option MType
deriving DecidableEq, Repr

/-- The `pet_id` filter of the matcher loop (`continue` when the caller gave
a pet id, the entry has one, and they differ; `""` is Python-falsy). -/
def skipEntry (petId : String) (e : Entry) : Bool :=
  petId ≠ "" && e.pet_id ≠ "" && e.pet_id ≠ petId

/-- The entry loop of `match_symptoms`: exact match breaks with score 1;
a partial match is kept only when its score strictly improves the best. -/
def findBestAux (seqSim : String → String → ℚ) (user petId : String) :
    List Entry → MatchAcc → MatchAcc
  | [], acc => acc
  | e :: rest, acc =>
    if skipEntry petId e then findBestAux seqSim user petId rest acc
    else if check_exact_match user e.symptoms then ⟨some e, 1, some .exactM⟩
    else if check_partial_match user e.symptoms then
      let score := max (seqSim (normalize_text user) (normalize_text e.symptoms))
        (keyword_similarity (extract_keywords user) (extract_keywords e.symptoms))
      if acc.score < score then findBestAux seqSim user petId rest ⟨some e, score, some .partialM⟩
      else findBestAux seqSim user petId rest acc
    else findBestAux seqSim user petId rest acc

/-- `extract_priority_from_assessment` from `json_symptom_matcher.py`. -/
def extract_priority_from_assessment (t : String) : Priority :=
  let lower := pyLower t
  if strContains lower "emergency" then .emergency
  else if strContains lower "urgent" then .high
  else if strContains lower "routine" then .normal
  else .normal

/-- `critical_keywords` of `extract_severity_from_assessment`. -/
def ASSESSMENT_CRITICAL_KEYWORDS : List String :=
  ["respiratory arrest", "hypoxia", "cpr", "cardiac", "seizure",
   "poisoning", "internal hemorrhage", "hypothermia", "shock",
   "near drowning", "electrocution", "heat stroke"]

/-- `severe_keywords` of `extract_severity_from_assessment`. -/
def ASSESSMENT_SEVERE_KEYWORDS : List String :=
  ["venom", "bloat", "dystocia", "trauma", "fracture",
   "burns", "pulmonary edema", "wound care"]

/-- `extract_severity_from_assessment` from `json_symptom_matcher.py`. -/
def extract_severity_from_assessment (t : String) : Severity :=
  let lower := pyLower t
  if ASSESSMENT_CRITICAL_KEYWORDS.any (fun k => strContains lower k) then .critical
  else if ASSESSMENT_SEVERE_KEYWORDS.any (fun k => strContains lower k) then .severe
  else .moderate

/-- Python `s[0].upper() + s[1:]` on a non-empty string. -/
def capFirst (s : String) : String :=
  match s.toList with
  | [] => ""
  | c :: cs => String.mk (c.toUpper :: cs)

/-- `extract_reason_from_assessment` from `json_symptom_matcher.py`. -/
def extract_reason_from_assessment (t : String) : String :=
  if strContains (pyLower t) "reason:" then
    let r := pyStrip ((pySplitOn (pyLower t) "reason:").getLastD "")
    if r = "" then "Symptoms require attention" else capFirst r
  else if t ≠ "" then
    pyStrip ((pySplitOn t ".").headD "")
  else "Symptoms require attention"

/-- Result record of `match_symptoms`; keys absent in a Python branch are
`none` / `0` here. -/
structure MatchResult where
  matched : Bool
  priority : Priority
  severity : Option Severity := none
  reason : String
  full_assessment : Option String := none
  pet_id : Option String := none
  symptoms_matched : Option String := none
  match_score : ℚ := 0
  match_type : Option MType := none
deriving DecidableEq, Repr

/-- Association-list lookup standing for `assessment_data.get(pet_id)`
followed by the `if assessment:` truthiness test. -/
def lookupAssessment (aData : List (String × String)) (pid : String) : Option String :=
  (aData.find? (fun kv => kv.1 == pid)).map (fun kv => kv.2)

/-- `match_symptoms(symptoms, pet_id)` from `json_symptom_matcher.py`. -/
def match_symptoms (seqSim : String → String → ℚ)
    (symptomData : Option (List Entry)) (assessmentData : Option (List (String × String)))
    (symptoms : String) (petId : String) : MatchResult :=
  if pyStrip symptoms = "" then
    { matched := false, priority := .normal, reason := "No symptoms provided" }
  else
    match symptomData, assessmentData with
    | some entries, some aData =>
      let user := pyStrip symptoms
      let acc := findBestAux seqSim user petId entries ⟨none, 0, none⟩
      match acc.best with
      | some e =>
        match lookupAssessment aData e.pet_id with
        | some atext =>
          { matched := true,
            priority := extract_priority_from_assessment atext,
            severity := some (extract_severity_from_assessment atext),
            reason := extract_reason_from_assessment atext,
            full_assessment := some atext,
            pet_id := some e.pet_id,
            symptoms_matched := some e.symptoms,
            match_score := acc.score,
            match_type := acc.mtype }
        | none =>
          { matched := true,
            priority := .emergency,
            severity := some .moderate,
            reason := "Symptoms matched predefined emergency pattern",
            full_assessment := some "",
            pet_id := some e.pet_id,
            symptoms_matched := some e.symptoms,
            match_score := acc.score,
            match_type := acc.mtype }
      | none =>
        { matched := false, priority := .normal,
          reason := "No matching emergency symptoms found" }
    | _, _ =>
      { matched := false, priority := .normal,
        reason := "Symptom database not available" }

/-! ## `ai_bridge.py`: the tiered classification entry point

The Groq client is an external service: it enters the embedding as
`groqReply : String → Option String`, where `none` models any transport
error, timeout or exception (the `except` branch that falls through), and
`some content` a successful completion.  `JSON_MATCHER_AVAILABLE` /
`GROQ_AVAILABLE` are the import-time availability flags. -/

/-- `GROQ_MODEL` from `ai_bridge.py`. -/
def GROQ_MODEL : String := "llama-3.3-70b-versatile"

/-- Result record of `analyze_symptoms_with_groq`; keys absent in a Python
branch are defaulted (`model := none`, `assessment := ""`). -/
structure ABResult where
  success : Bool
  category : String
  priority : Priority
  reason : String
  assessment : String := ""
  model : Option String := none
deriving DecidableEq, Repr

/-- Python `line.split(":", 1)[1]`: everything after the first colon. -/
def afterFirstColon (line : String) : String :=
  match pySplitOn line ":" with
  | [] => ""
  | _ :: rest => joinSep ":" rest

/-- One iteration of the line loop in `_parse_groq_response`. -/
def parseGroqLine (acc : String × String) (line0 : String) : String × String :=
  let line := pyStrip line0
  if strStartsWith (pyLower line) "category:" then
    let cat := pyStrip (afterFirstColon line)
    let category :=
      if strContains (pyLower cat) "emergency" then "Emergency"
      else if strContains (pyLower cat) "urgent" then "Urgent"
      else "Routine"
    (category, acc.2)
  else if strStartsWith (pyLower line) "reason:" then
    (acc.1, pyStrip (afterFirstColon line))
  else acc

/-- `_parse_groq_response` from `ai_bridge.py`. -/
def parse_groq_response (response : String) : String × String :=
  (pySplitOn (pyStrip response) "\n").foldl parseGroqLine ("Routine", "Unable to parse response")

/-- The `priority_map` applied to the parsed Groq category. -/
def groqPriorityMap (category : String) : Priority :=
  if pyLower category = "emergency" then .emergency
  else if pyLower category = "urgent" then .high
  else if pyLower category = "routine" then .normal
  else .normal

/-- The `category_map` used by tiers 1 and 3 of `analyze_symptoms_with_groq`. -/
def categoryMap (p : Priority) : String :=
  match p with
  | .emergency => "Emergency"
  | .high => "Urgent"
  | .normal => "Routine"
  | .low => "Routine"

/-- `_fallback_symptom_analysis` from `ai_bridge.py`. -/
def fallback_symptom_analysis (symptoms : String) : ABResult :=
  let res := analyze_priority symptoms
  { success := true,
    category := categoryMap res.1,
    priority := res.1,
    reason := res.2.1,
    assessment := "Category: " ++ categoryMap res.1 ++ "\nReason: " ++ res.2.1,
    model := some "keyword-fallback" }

/-- The collaborators and availability flags of `ai_bridge.py`. -/
structure AIConfig where
  jsonAvailable : Bool
  seqSim : String → String → ℚ
  symptomData : Option (List Entry)
  assessmentData : Option (List (String × String))
  groqAvailable : Bool
  groqReply : String → Option String

/-- `analyze_symptoms_with_groq(symptoms, pet_id)` from `ai_bridge.py`:
tier 1 the JSON matcher, tier 2 the Groq service, tier 3 the keyword
fallback. -/
def analyze_symptoms_with_groq (cfg : AIConfig) (symptoms petId : String) : ABResult :=
  if pyStrip symptoms = "" then
    { success := false, category := "NORMAL", priority := .normal,
      reason := "No symptoms provided", assessment := "" }
  else
    let tier1 :=
      if cfg.jsonAvailable then
        let j := match_symptoms cfg.seqSim cfg.symptomData cfg.assessmentData symptoms petId
        if j.matched then
          some { success := true, category := categoryMap j.priority, priority := j.priority,
                 reason := j.reason, assessment := j.full_assessment.getD "",
                 model := some "json_symptom_matcher" : ABResult }
        else none
      else none
    match tier1 with
    | some r => r
    | none =>
      match (if cfg.groqAvailable then cfg.groqReply symptoms else none) with
      | some content =>
        let responseText := pyStrip content
        let parsed := parse_groq_response responseText
        { success := true, category := parsed.1, priority := groqPriorityMap parsed.1,
          reason := parsed.2, assessment := responseText, model := some GROQ_MODEL }
      | none => fallback_symptom_analysis symptoms

/-! ## `models.py`: `QueueStatus` -/

/-- The per-date `QueueStatus` row (`models.py`); all integer fields default
to 0 at creation. -/
structure QueueState where
  current_token : Nat := 0
  last_called_token : Nat := 0
  total_appointments : Nat := 0
  completed_appointments : Nat := 0
  avg_wait_time : Nat := 0
deriving DecidableEq, Repr

/-- `QueueStatus.get_next_token`: increment and persist `current_token`,
returning the new value. -/
def get_next_token (q : QueueState) : QueueState × Nat :=
  ({ q with current_token := q.current_token + 1 }, q.current_token + 1)

/-- `QueueStatus.get_estimated_wait_time(token_number)` from `models.py`. -/
def get_estimated_wait_time (q : QueueState) (token_number : Nat) : Nat :=
  if token_number ≤ q.last_called_token then 0
  else
    let positions_ahead := token_number - q.last_called_token
    let avg_time := if q.avg_wait_time > 0 then q.avg_wait_time else 15
    positions_ahead * avg_time

/-- Spec-side wait formula, amended: 0 when `t ≤ last`, otherwise
`(t − last) × avg` with `avg` defaulting to 15 when the stored average is
zero.  (The spec's original formula used `t − last − 1`.) -/
def specEstimatedWait (last avg t : Nat) : Nat :=
  if t ≤ last then 0
  else (t - last) * (if avg > 0 then avg else 15)

/-! ## `models.py`: `EmergencyCase` and its queue-number assignment -/

/-- Status values of `EmergencyCase.STATUS_CHOICES`. -/
inductive EStatus where
  | waiting
  | inTreatment
  | stabilized
  | resolved
  | referred
deriving DecidableEq, Repr

/-- An `EmergencyCase` row (fields the embedded operations read or write).
`reported_at` is a timestamp modelled as a `Nat`. -/
structure ECase where
  id : Nat
  assigned_vet : Option Nat := none
  status : EStatus := .waiting
  queue_number : Option Nat := none
  severity : Severity
  reported_at : Nat
deriving DecidableEq, Repr

/-- The `status__in=["WAITING", "IN_TREATMENT"]` filter. -/
def isOpenCase (c : ECase) : Bool :=
  c.status == .waiting || c.status == .inTreatment

/-- Python falsiness of `self.queue_number` (`None` or `0`). -/
def queueNumberFalsy (c : ECase) : Bool :=
  match c.queue_number with
  | none => true
  | some n => n == 0

/-- Maximum of a list of naturals (0 on the empty list). -/
def listMax (l : List Nat) : Nat := l.foldr max 0

/-- The queue number `EmergencyCase.save` would assign against the given
table: `(max queue_number among WAITING/IN_TREATMENT cases) + 1`, or 1 when
no open case exists.  `order_by("-queue_number").first()` sorts SQL `NULL`
last in descending order, so the row it picks carries the maximal non-null
`queue_number`; if every open row had a null `queue_number`, the Python
`last_case.queue_number + 1` would raise `TypeError`, modelled as `none`. -/
def nextQueueNumber (db : List ECase) : Option Nat :=
  if db.filter isOpenCase = [] then some 1
  else if (db.filter isOpenCase).filterMap (fun c => c.queue_number) = [] then none
  else some (listMax ((db.filter isOpenCase).filterMap (fun c => c.queue_number)) + 1)

/-- `EmergencyCase.save` on a new case (the `enqueue` operation): assign a
queue number when the field is unset, then insert the row. -/
def enqueueCase (db : List ECase) (c : ECase) : Option (List ECase × Nat) :=
  if queueNumberFalsy c then
    (nextQueueNumber db).map
      (fun n => (db ++ [{ c with queue_number := some n }], n))
  else
    some (db ++ [c], c.queue_number.getD 0)

/-- A sequence of `enqueue` calls, collecting the assigned queue numbers. -/
def enqueueSeq (db : List ECase) : List ECase → Option (List ECase × List Nat)
  | [] => some (db, [])
  | c :: cs =>
    match enqueueCase db c with
    | none => none
    | some (db1, n) =>
      match enqueueSeq db1 cs with
      | none => none
      | some (db2, ns) => some (db2, n :: ns)

/-- Verification view of the open cohort: `some 0` when no open case exists,
`some (max open queue number)` when the open cases carry queue numbers, and
`none` in the degenerate all-null state where the source would raise. -/
def stateMax (db : List ECase) : Option Nat :=
  if db.filter isOpenCase = [] then some 0
  else if (db.filter isOpenCase).filterMap (fun c => c.queue_number) = [] then none
  else some (listMax ((db.filter isOpenCase).filterMap (fun c => c.queue_number)))

/-! ## `views.py`: the staff emergency-queue listing (`emergency_cases`)

The staff branch runs
`EmergencyCase.objects.filter(status__in=["WAITING","IN_TREATMENT"])
  .order_by("severity", "reported_at")`.
`severity` is a `CharField`, so the database compares the stored strings
(`"CRITICAL" < "MILD" < "MODERATE" < "SEVERE"` alphabetically), not the
clinical rank.  The sort is embedded as a stable insertion sort on exactly
that key. -/

/-- The string stored in the `severity` column. -/
def severityStr (s : Severity) : String :=
  match s with
  | .critical => "CRITICAL"
  | .severe => "SEVERE"
  | .moderate => "MODERATE"
  | .mild => "MILD"

/-- The `order_by("severity", "reported_at")` comparison on stored values. -/
def caseOrderLe (a b : ECase) : Bool :=
  strLt (severityStr a.severity) (severityStr b.severity) ||
    (severityStr a.severity == severityStr b.severity && a.reported_at ≤ b.reported_at)

/-- Stable insert for the insertion sort. -/
def insertLe (le : α → α → Bool) (a : α) : List α → List α
  | [] => [a]
  | b :: bs => if le a b then a :: b :: bs else b :: insertLe le a bs

/-- Stable insertion sort by a boolean comparison. -/
def sortLe (le : α → α → Bool) : List α → List α
  | [] => []
  | a :: as => insertLe le a (sortLe le as)

/-- The staff emergency listing of `emergency_cases` in `views.py`. -/
def activeEmergencyCases (db : List ECase) : List ECase :=
  sortLe caseOrderLe (db.filter isOpenCase)

/-! ## `views.py`: `claim_emergency` -/

/-- Caller role, as far as `claim_emergency` checks it. -/
inductive Role where
  | vet
  | other
deriving DecidableEq, Repr

/-- Outcome of a claim attempt (the message branch taken). -/
inductive ClaimOutcome where
  | notVet
  | alreadyAssigned
  | claimed
deriving DecidableEq, Repr

/-- `claim_emergency` from `views.py`: only vets may claim; any case whose
`assigned_vet` is already set is refused; otherwise the case is assigned to
the caller and moved to `IN_TREATMENT`.  Returns the outcome and the case
row afterwards. -/
def claim_emergency (role : Role) (c : ECase) (vetId : Nat) : ClaimOutcome × ECase :=
  if role ≠ .vet then (.notVet, c)
  else
    match c.assigned_vet with
    | some _ => (.alreadyAssigned, c)
    | none => (.claimed, { c with assigned_vet := some vetId, status := .inTreatment })

/-! ## `views.py`: the booking availability gate of `book_appointment`

Dates are day indices; `weekday(d) = d % 7`.  Only the doctor-gating part of
`book_appointment` (the leave / same-day status checks and the availability
record resolution, lines 50–95) is embedded: the rest of the view builds the
appointment row and is covered by the other operations. -/

/-- `DoctorStatus.STATUS_CHOICES` (the `BREAK` value is `onBreak` here since
`break` is reserved in Lean). -/
inductive DStatusKind where
  | available
  | busy
  | onLeave
  | onBreak
  | emergencyDuty
  | offDuty
deriving DecidableEq, Repr

/-- A `DoctorStatus` row (fields the gate reads). -/
structure DStatus where
  vet : Nat
  status : DStatusKind := .available
  leave_start : Option Nat := none
  leave_end : Option Nat := none
deriving DecidableEq, Repr

/-- A `DoctorAvailability` row. -/
structure DAvail where
  vet : Nat
  day_of_week : Option Nat := none
  date : Option Nat := none
  start_time : Nat
  end_time : Nat
  is_available : Bool := true
deriving DecidableEq, Repr

/-- The leave-range test of `book_appointment`: both bounds set and the
appointment date inside them. -/
def leaveCovers (st : DStatus) (d : Nat) : Bool :=
  match st.leave_start, st.leave_end with
  | some ls, some le => ls ≤ d && d ≤ le
  | _, _ => false

/-- The availability record resolution of `book_appointment`: a date-specific
record for the doctor and date first, else a recurring record for the
doctor and weekday. -/
def findAvailability (avails : List DAvail) (vetId d : Nat) : Option DAvail :=
  match avails.find? (fun a => a.vet == vetId && a.date == some d) with
  | some a => some a
  | none =>
    avails.find? (fun a => a.vet == vetId && a.date == none && a.day_of_week == some (d % 7))

/-- Gate outcome: a rejection with its message, or an admitted booking
(`warned` records the same-day off-duty warning, which does not block). -/
inductive GateResult where
  | rejected (reason : String)
  | allowed (warned : Bool)
deriving DecidableEq, Repr

/-- The availability-record part of the gate (lines 72–95 of `views.py`). -/
def gateAvailability (avails : List DAvail) (vetId d t : Nat) (warned : Bool) : GateResult :=
  match findAvailability avails vetId d with
  | some a =>
    if ¬ a.is_available then .rejected "The doctor is not available on this date."
    else if t < a.start_time || a.end_time < t then .rejected "outside available hours"
    else .allowed warned
  | none => .allowed warned

/-- The doctor-gating logic of `book_appointment` (lines 50–95 of
`views.py`): leave-range reject, same-day `ON_LEAVE` reject, same-day
`OFF_DUTY` warning, then the availability records; absent records admit. -/
def book_appointment_gate (statuses : List DStatus) (avails : List DAvail)
    (vetId d t today : Nat) : GateResult :=
  match statuses.find? (fun s => s.vet == vetId) with
  | some st =>
    if leaveCovers st d then .rejected "on leave for the appointment date"
    else if d == today && st.status == .onLeave then .rejected "on leave today"
    else gateAvailability avails vetId d t (d == today && st.status == .offDuty)
  | none => gateAvailability avails vetId d t false

/-! ## `views.py`: `check_in` and `call_next_patient` -/

/-- Status values of `Appointment.STATUS_CHOICES`. -/
inductive AStatus where
  | scheduled
  | confirmed
  | inProgress
  | completed
  | cancelled
  | noShow
deriving DecidableEq, Repr

/-- An `Appointment` row (fields the queue operations read or write). -/
structure Appt where
  id : Nat
  date : Nat
  status : AStatus := .scheduled
  token_number : Option Nat := none
  check_in_time : Option Nat := none
deriving DecidableEq, Repr

/-- Python truthiness of `appointment.token_number` (`None` and `0` falsy). -/
def tokenTruthy (a : Appt) : Bool :=
  match a.token_number with
  | some t => t ≠ 0
  | none => false

/-- The `status__in=["SCHEDULED","CONFIRMED","IN_PROGRESS"]` count over
today's appointments, used to refresh `queue.total_appointments`. -/
def countActiveToday (db : List Appt) (today : Nat) : Nat :=
  (db.filter (fun a => a.date == today &&
    (a.status == .scheduled || a.status == .confirmed || a.status == .inProgress))).length

/-- `check_in(pk)` from `views.py` (after the permission check): assign the
next daily token, stamp the check-in time and confirm the appointment when
no token is set; otherwise only report the existing token.  `none` models
`get_object_or_404` failing. -/
def check_in (db : List Appt) (q : QueueState) (pk now today : Nat) :
    Option (List Appt × QueueState) :=
  match db.find? (fun a => a.id == pk) with
  | none => none
  | some appt =>
    if ¬ tokenTruthy appt then
      let next := get_next_token q
      let appt1 := { appt with token_number := some next.2,
                               check_in_time := some now, status := .confirmed }
      let db1 := db.map (fun a => if a.id == pk then appt1 else a)
      some (db1, { next.1 with total_appointments := countActiveToday db1 today })
    else
      some (db, q)

/-- The queryset filter of `call_next_patient`: today's `CONFIRMED`
appointments with `token_number > last_called_token` (SQL `NULL` compares
false). -/
def nextCandidate (lastCalled today : Nat) (a : Appt) : Bool :=
  a.date == today && a.status == .confirmed &&
    (match a.token_number with
     | some t => lastCalled < t
     | none => false)

/-- `call_next_patient` from `views.py` (queue and appointment state; the
side update of the caller's `DoctorStatus` row is outside the modelled
state): pick the candidate with the smallest token, advance
`last_called_token`, set that appointment `IN_PROGRESS`; no candidate means
no state change.  `order_by("token_number").first()` is the argmin by token
over the filtered rows. -/
def call_next_patient (q : QueueState) (db : List Appt) (today : Nat) :
    Option Nat × QueueState × List Appt :=
  let cands := db.filter (nextCandidate q.last_called_token today)
  match cands.argmin (fun a => a.token_number.getD 0) with
  | none => (none, q, db)
  | some a =>
    (some a.id,
     { q with last_called_token := a.token_number.getD 0 },
     db.map (fun x => if x.id == a.id then { x with status := .inProgress } else x))

/-! ## Claims -/

/-- C1 (counterexample): with `last_called_token = 0`, `avg_wait_time = 0`
and token 2, the code returns `(2 − 0) × 15 = 30`, not the claimed
`(2 − 0 − 1) × 15 = 15`. -/
theorem estimated_wait_claimed_formula_fails :
    ¬ (get_estimated_wait_time { } 2 = (2 - 0 - 1) * 15) := by
  decide

/-- C1 (amended): `get_estimated_wait_time` returns 0 when the token is at
or below the last called token, and otherwise `(t − lastCalledToken) ×
avgWaitMinutes`, where `avgWaitMinutes` is the stored `avg_wait_time` if
positive and 15 otherwise. -/
theorem estimated_wait_eq_spec (q : QueueState) (t : Nat) :
    get_estimated_wait_time q t = specEstimatedWait q.last_called_token q.avg_wait_time t := by
  rfl

/-- C2 (code evaluation at the failing input): two open cases, one SEVERE
reported at time 10 and one MILD reported at time 20.  The clinical triage
order of the claim lists the SEVERE case first; the code sorts the
`severity` column as text, so `"MILD" < "SEVERE"` and the MILD case comes
first. -/
theorem emergency_listing_sorts_severity_alphabetically :
    activeEmergencyCases
        [{ id := 1, severity := .severe, reported_at := 10 },
         { id := 2, severity := .mild, reported_at := 20 }] =
      [{ id := 2, severity := .mild, reported_at := 20 },
       { id := 1, severity := .severe, reported_at := 10 }] ∧
    activeEmergencyCases
        [{ id := 1, severity := .severe, reported_at := 10 },
         { id := 2, severity := .mild, reported_at := 20 }] ≠
      [{ id := 1, severity := .severe, reported_at := 10 },
       { id := 2, severity := .mild, reported_at := 20 }] := by
  constructor
  · rfl
  · decide

/-- C4 (counterexample): a case already assigned to vet 7 and claimed again
by vet 7 himself: the claim predicts success (no *different* doctor holds
it), but the code refuses any case whose `assigned_vet` is set. -/
theorem claim_by_same_vet_is_refused :
    ¬ (((claim_emergency .vet
          { id := 1, assigned_vet := some 7, severity := .moderate, reported_at := 0 } 7).1
            = .alreadyAssigned) ↔
        (({ id := 1, assigned_vet := some 7, severity := .moderate,
            reported_at := 0 : ECase }).assigned_vet ≠ none ∧
         ({ id := 1, assigned_vet := some 7, severity := .moderate,
            reported_at := 0 : ECase }).assigned_vet ≠ some 7)) := by
  decide

/-- C4 (amended): a vet's claim fails with AlreadyAssigned exactly when the
case's `assigned_vet` is already set (to any doctor, the claimant
included); on failure the case is unchanged, otherwise the case is assigned
to the claiming vet and moved to IN_TREATMENT. -/
theorem claim_emergency_spec (c : ECase) (v : Nat) :
    ((claim_emergency .vet c v).1 = .alreadyAssigned ↔ c.assigned_vet ≠ none) ∧
    (c.assigned_vet ≠ none → claim_emergency .vet c v = (.alreadyAssigned, c)) ∧
    (c.assigned_vet = none →
      claim_emergency .vet c v =
        (.claimed, { c with assigned_vet := some v, status := .inTreatment })) := by
  cases h : c.assigned_vet <;>
    simp [claim_emergency, h]

/-- C4 (witness): an unassigned case claimed by vet 4 is assigned to vet 4
and moved to IN_TREATMENT. -/
theorem claim_emergency_spec_witness :
    claim_emergency .vet { id := 1, severity := .critical, reported_at := 5 } 4 =
      (.claimed, { id := 1, assigned_vet := some 4, status := .inTreatment,
                   severity := .critical, reported_at := 5 }) := by
  exact (claim_emergency_spec { id := 1, severity := .critical, reported_at := 5 } 4).2.2 rfl

/-- C6: on empty or whitespace-only input, `analyze_symptoms_with_groq`
returns the fixed NORMAL / "No symptoms provided" result, whatever the
collaborators (pattern library, Groq service, keyword tables) would do. -/
theorem empty_symptoms_fail_closed (cfg : AIConfig) (s petId : String)
    (h : pyStrip s = "") :
    analyze_symptoms_with_groq cfg s petId =
      { success := false, category := "NORMAL", priority := .normal,
        reason := "No symptoms provided", assessment := "" } := by
  simp [analyze_symptoms_with_groq, h]

/-- C6 (witness): a three-space input with live collaborators still yields
the fixed fail-closed result. -/
theorem empty_symptoms_fail_closed_witness :
    pyStrip "   " = "" ∧
    analyze_symptoms_with_groq
        { jsonAvailable := true, seqSim := fun _ _ => 1,
          symptomData := some [{ symptoms := "x", pet_id := "p" }],
          assessmentData := some [("p", "Emergency")],
          groqAvailable := true, groqReply := fun _ => some "Category: Emergency" }
        "   " "p" =
      { success := false, category := "NORMAL", priority := .normal,
        reason := "No symptoms provided", assessment := "" } :=
  ⟨by decide,
   empty_symptoms_fail_closed
     { jsonAvailable := true, seqSim := fun _ _ => 1,
       symptomData := some [{ symptoms := "x", pet_id := "p" }],
       assessmentData := some [("p", "Emergency")],
       groqAvailable := true, groqReply := fun _ => some "Category: Emergency" }
     "   " "p" (by decide)⟩

/-- Searching a list filtered by the same predicate finds the same element. -/
theorem find?_filter_self (p : α → Bool) (l : List α) :
    (l.filter p).find? p = l.find? p := by
  induction l with
  | nil => rfl
  | cons a l ih =>
    by_cases h : p a = true
    · rw [List.filter_cons_of_pos h, List.find?_cons_of_pos _ h, List.find?_cons_of_pos _ h]
    · rw [List.filter_cons_of_neg (by simpa using h), List.find?_cons_of_neg _ (by simpa using h),
        ih]

/-- The availability part of the gate depends on the records only through
the resolution. -/
theorem gateAvailability_congr {a1 a2 : List DAvail} (vetId d t : Nat) (w : Bool)
    (h : findAvailability a1 vetId d = findAvailability a2 vetId d) :
    gateAvailability a1 vetId d t w = gateAvailability a2 vetId d t w := by
  unfold gateAvailability
  rw [h]

/-- When a date-specific record exists, resolution ignores every other
record. -/
theorem findAvailability_filter (avails : List DAvail) (vetId d : Nat) (a0 : DAvail)
    (h : avails.find? (fun a => a.vet == vetId && a.date == some d) = some a0) :
    findAvailability (avails.filter (fun a => a.vet == vetId && a.date == some d)) vetId d
      = findAvailability avails vetId d := by
  unfold findAvailability
  rw [find?_filter_self, h]

/-- C7 (counterexample): vet 1 has `DoctorStatus` ON_LEAVE with no leave
range and no availability records.  For a same-day booking the claim
demands bookable, but the gate rejects. -/
theorem gate_rejects_on_leave_status_without_range :
    book_appointment_gate [{ vet := 1, status := .onLeave }] [] 1 5 600 5 =
      .rejected "on leave today" ∧
    book_appointment_gate [{ vet := 1, status := .onLeave }] [] 1 5 600 5 ≠
      .allowed false ∧
    book_appointment_gate [{ vet := 1, status := .onLeave }] [] 1 5 600 5 ≠
      .allowed true := by
  refine ⟨rfl, ?_, ?_⟩ <;> decide

/-- C7 (amended): (1) when no date-specific and no recurring availability
record matches, the doctor has no leave range covering the date, and the
booking is not a same-day booking with status ON_LEAVE, the gate admits the
booking (absence of a schedule never blocks); (2) when a date-specific
record exists, the gate behaves as if only the date-specific records
existed — they take precedence over recurring weekday records. -/
theorem availability_gate_spec :
    (∀ (statuses : List DStatus) (avails : List DAvail) (vetId d t today : Nat),
      avails.find? (fun a => a.vet == vetId && a.date == some d) = none →
      avails.find? (fun a => a.vet == vetId && a.date == none &&
        a.day_of_week == some (d % 7)) = none →
      (∀ st ∈ statuses, st.vet = vetId → leaveCovers st d = false) →
      (∀ st ∈ statuses, st.vet = vetId → ¬(d = today ∧ st.status = .onLeave)) →
      ∃ w, book_appointment_gate statuses avails vetId d t today = .allowed w) ∧
    (∀ (statuses : List DStatus) (avails : List DAvail) (vetId d t today : Nat)
        (a0 : DAvail),
      avails.find? (fun a => a.vet == vetId && a.date == some d) = some a0 →
      book_appointment_gate statuses avails vetId d t today =
        book_appointment_gate statuses
          (avails.filter (fun a => a.vet == vetId && a.date == some d)) vetId d t today) := by
  constructor
  · intro statuses avails vetId d t today h1 h2 h3 h4
    have hga : ∀ w, gateAvailability avails vetId d t w = .allowed w := by
      intro w
      unfold gateAvailability findAvailability
      rw [h1, h2]
    unfold book_appointment_gate
    cases hfind : statuses.find? (fun s => s.vet == vetId) with
    | none => exact ⟨false, hga false⟩
    | some st =>
      have hmem : st ∈ statuses := List.mem_of_find?_eq_some hfind
      have hvet : st.vet = vetId := by
        have := List.find?_some hfind
        simpa using this
      have hl : leaveCovers st d = false := h3 st hmem hvet
      have hol : (d == today && st.status == DStatusKind.onLeave) = false := by
        by_cases hdt : d = today
        · by_cases hst : st.status = .onLeave
          · exact absurd ⟨hdt, hst⟩ (h4 st hmem hvet)
          · simp [hst]
        · simp [hdt]
      dsimp only
      rw [if_neg (by simp [hl]), if_neg (by simp [hol])]
      exact ⟨_, hga _⟩
  · intro statuses avails vetId d t today a0 h
    have hcong : ∀ w, gateAvailability avails vetId d t w =
        gateAvailability (avails.filter (fun a => a.vet == vetId && a.date == some d))
          vetId d t w := by
      intro w
      exact (gateAvailability_congr vetId d t w (findAvailability_filter avails vetId d a0 h)).symm
    unfold book_appointment_gate
    cases hfind : statuses.find? (fun s => s.vet == vetId) with
    | none => exact hcong false
    | some st =>
      dsimp only
      by_cases hl : leaveCovers st d = true
      · rw [if_pos hl, if_pos hl]
      · rw [if_neg hl, if_neg hl]
        by_cases hol : (d == today && st.status == DStatusKind.onLeave) = true
        · rw [if_pos hol, if_pos hol]
        · rw [if_neg hol, if_neg hol]
          exact hcong _

/-- C7 (witness): vet 1 has only a recurring record for another weekday and
an OFF_DUTY status; booking on day 9 (weekday 2) is admitted. -/
theorem availability_gate_spec_witness :
    ([{ vet := 1, day_of_week := some 3, start_time := 540, end_time := 1020,
        is_available := true : DAvail }].find?
      (fun a => a.vet == 1 && a.date == some 9) = none) ∧
    ([{ vet := 1, day_of_week := some 3, start_time := 540, end_time := 1020,
        is_available := true : DAvail }].find?
      (fun a => a.vet == 1 && a.date == none && a.day_of_week == some (9 % 7)) = none) ∧
    (∃ w, book_appointment_gate [{ vet := 1, status := .offDuty }]
      [{ vet := 1, day_of_week := some 3, start_time := 540, end_time := 1020,
         is_available := true }] 1 9 600 9 = .allowed w) :=
  ⟨by decide, by decide,
   availability_gate_spec.1 [{ vet := 1, status := .offDuty }]
     [{ vet := 1, day_of_week := some 3, start_time := 540, end_time := 1020,
        is_available := true }] 1 9 600 9
     (by decide) (by decide) (by decide) (by decide)⟩

/-- C8: when the matcher loop settles on an entry whose `pet_id` has no
assessment, `match_symptoms` reports a match with priority EMERGENCY and
severity MODERATE. -/
theorem unlinked_pattern_defaults_emergency (seqSim : String → String → ℚ)
    (entries : List Entry) (aData : List (String × String)) (symptoms petId : String)
    (e : Entry)
    (hne : pyStrip symptoms ≠ "")
    (hbest : (findBestAux seqSim (pyStrip symptoms) petId entries ⟨none, 0, none⟩).best
      = some e)
    (hmiss : lookupAssessment aData e.pet_id = none) :
    (match_symptoms seqSim (some entries) (some aData) symptoms petId).matched = true ∧
    (match_symptoms seqSim (some entries) (some aData) symptoms petId).priority
      = .emergency ∧
    (match_symptoms seqSim (some entries) (some aData) symptoms petId).severity
      = some .moderate := by
  unfold match_symptoms
  rw [if_neg hne]
  simp only [hbest, hmiss]
  exact ⟨trivial, trivial, trivial⟩

/-- C8 (witness): an exact match against a pattern whose `pet_id` is absent
from the assessment table yields the EMERGENCY/MODERATE default. -/
theorem unlinked_pattern_defaults_emergency_witness :
    (pyStrip "vomiting blood" ≠ "") ∧
    ((findBestAux (fun _ _ => 0) (pyStrip "vomiting blood") ""
        [{ symptoms := "vomiting blood", pet_id := "p1" }] ⟨none, 0, none⟩).best
      = some { symptoms := "vomiting blood", pet_id := "p1" }) ∧
    ((match_symptoms (fun _ _ => 0)
        (some [{ symptoms := "vomiting blood", pet_id := "p1" }]) (some [])
        "vomiting blood" "").matched = true ∧
     (match_symptoms (fun _ _ => 0)
        (some [{ symptoms := "vomiting blood", pet_id := "p1" }]) (some [])
        "vomiting blood" "").priority = .emergency ∧
     (match_symptoms (fun _ _ => 0)
        (some [{ symptoms := "vomiting blood", pet_id := "p1" }]) (some [])
        "vomiting blood" "").severity = some .moderate) :=
  ⟨by decide, by decide,
   unlinked_pattern_defaults_emergency (fun _ _ => 0)
     [{ symptoms := "vomiting blood", pet_id := "p1" }] [] "vomiting blood" ""
     { symptoms := "vomiting blood", pet_id := "p1" }
     (by decide) (by decide) rfl⟩

/-- C9: `call_next_patient` returns the candidate (today's CONFIRMED slots
with a token above `last_called_token`) with the smallest token, advances
`last_called_token` to that token, marks exactly that slot IN_PROGRESS; if
no candidate exists, it changes nothing and returns no slot. -/
theorem call_next_spec (q : QueueState) (db : List Appt) (today : Nat) :
    (db.filter (nextCandidate q.last_called_token today) = [] →
      call_next_patient q db today = (none, q, db)) ∧
    (db.filter (nextCandidate q.last_called_token today) ≠ [] →
      ∃ a, a ∈ db ∧ nextCandidate q.last_called_token today a = true ∧
        (∀ b ∈ db, nextCandidate q.last_called_token today b = true →
          a.token_number.getD 0 ≤ b.token_number.getD 0) ∧
        call_next_patient q db today =
          (some a.id, { q with last_called_token := a.token_number.getD 0 },
           db.map (fun x => if x.id == a.id then { x with status := .inProgress } else x))) := by
  constructor
  · intro h
    simp only [call_next_patient, h, List.argmin_nil]
  · intro h
    cases hmin : (db.filter (nextCandidate q.last_called_token today)).argmin
        (fun a => a.token_number.getD 0) with
    | none => exact absurd (List.argmin_eq_none.mp hmin) h
    | some a =>
      have hamem : a ∈ db.filter (nextCandidate q.last_called_token today) :=
        List.argmin_mem hmin
      have ha1 : a ∈ db := (List.mem_filter.mp hamem).1
      have ha2 : nextCandidate q.last_called_token today a = true :=
        (List.mem_filter.mp hamem).2
      refine ⟨a, ha1, ha2, ?_, ?_⟩
      · intro b hb hcand
        exact List.le_of_mem_argmin (List.mem_filter.mpr ⟨hb, hcand⟩) hmin
      · simp only [call_next_patient, hmin]

/-- C9 (witness): among two confirmed slots with tokens 2 and 1 above a
last-called token of 0, the slot with token 1 is called, the queue advances
to 1, and only that slot changes status. -/
theorem call_next_spec_witness :
    ([{ id := 1, date := 7, status := .confirmed, token_number := some 2 },
      { id := 2, date := 7, status := .confirmed, token_number := some 1 }].filter
        (nextCandidate ({ } : QueueState).last_called_token 7) ≠ []) ∧
    (∃ a, a ∈ [{ id := 1, date := 7, status := .confirmed, token_number := some 2 },
               { id := 2, date := 7, status := .confirmed, token_number := some 1 }] ∧
      nextCandidate ({ } : QueueState).last_called_token 7 a = true ∧
      (∀ b ∈ [{ id := 1, date := 7, status := .confirmed, token_number := some 2 },
              { id := 2, date := 7, status := .confirmed, token_number := some 1 }],
        nextCandidate ({ } : QueueState).last_called_token 7 b = true →
          a.token_number.getD 0 ≤ b.token_number.getD 0) ∧
      call_next_patient { } [{ id := 1, date := 7, status := .confirmed, token_number := some 2 },
                             { id := 2, date := 7, status := .confirmed, token_number := some 1 }] 7 =
        (some a.id, { ({ } : QueueState) with last_called_token := a.token_number.getD 0 },
         [{ id := 1, date := 7, status := .confirmed, token_number := some 2 },
          { id := 2, date := 7, status := .confirmed, token_number := some 1 }].map
           (fun x => if x.id == a.id then { x with status := .inProgress } else x))) :=
  ⟨by decide,
   (call_next_spec { } [{ id := 1, date := 7, status := .confirmed, token_number := some 2 },
                        { id := 2, date := 7, status := .confirmed, token_number := some 1 }] 7).2
     (by decide)⟩

/-- C10: a second check-in of an appointment that already carries a token
changes nothing: the appointment keeps its token, check-in time and status,
and the daily token counter is not advanced. -/
theorem check_in_idempotent (db : List Appt) (q : QueueState) (pk now today : Nat)
    (a : Appt) (hfind : db.find? (fun x => x.id == pk) = some a)
    (htok : tokenTruthy a = true) :
    check_in db q pk now today = some (db, q) := by
  simp [check_in, hfind, htok]

/-- A false `patHit` means the regex-table search found nothing. -/
theorem find?_eq_none_of_patHit_false {pats : List RePat} {t : String}
    (h : patHit pats t = false) :
    pats.find? (fun p => reSearchPat p t) = none := by
  cases hfind : pats.find? (fun p => reSearchPat p t) with
  | none => rfl
  | some p => rw [patHit, hfind] at h; simp at h

/-- A true `patHit` exhibits the found pattern. -/
theorem patHit_true_exists {pats : List RePat} {t : String}
    (h : patHit pats t = true) :
    ∃ p, pats.find? (fun p => reSearchPat p t) = some p := by
  rw [patHit] at h
  exact Option.isSome_iff_exists.mp h

/-- C3 (counterexample): "checkup and microchip" contains the NORMAL-table
keyword "checkup" and the LOW-table keyword "microchip" and hits no
EMERGENCY or HIGH keyword or regex, yet the classifier does not return
NORMAL (it returns LOW: the source scans the LOW table before the NORMAL
table). -/
theorem keyword_scan_order_counterexample :
    (kwHits NORMAL_PRIORITY_KEYWORDS "checkup and microchip" ≠ [] ∧
     kwHits LOW_PRIORITY_KEYWORDS "checkup and microchip" ≠ [] ∧
     kwHits EMERGENCY_KEYWORDS "checkup and microchip" = [] ∧
     patHit EMERGENCY_PATTERNS "checkup and microchip" = false ∧
     kwHits HIGH_PRIORITY_KEYWORDS "checkup and microchip" = [] ∧
     patHit HIGH_PATTERNS "checkup and microchip" = false) ∧
    (analyze_priority "checkup and microchip").1 ≠ .normal := by
  decide

/-- C3 (amended): `analyze_priority` scans its tables in the priority order
EMERGENCY, HIGH, LOW, NORMAL (keywords before regexes within EMERGENCY and
HIGH), the first table with a hit deciding the priority; a text with a
NORMAL-table and a LOW-table keyword but no EMERGENCY or HIGH hit therefore
classifies LOW, and a text with no hit at all classifies NORMAL with the
fixed "no urgent keywords detected" reason. -/
theorem analyze_priority_scan_order (d : String) (hne : d ≠ "") :
    ((kwHits EMERGENCY_KEYWORDS (pyStrip (pyLower d)) ≠ [] ∨
        patHit EMERGENCY_PATTERNS (pyStrip (pyLower d)) = true) →
      (analyze_priority d).1 = .emergency) ∧
    (kwHits EMERGENCY_KEYWORDS (pyStrip (pyLower d)) = [] →
      patHit EMERGENCY_PATTERNS (pyStrip (pyLower d)) = false →
      (kwHits HIGH_PRIORITY_KEYWORDS (pyStrip (pyLower d)) ≠ [] ∨
        patHit HIGH_PATTERNS (pyStrip (pyLower d)) = true) →
      (analyze_priority d).1 = .high) ∧
    (kwHits EMERGENCY_KEYWORDS (pyStrip (pyLower d)) = [] →
      patHit EMERGENCY_PATTERNS (pyStrip (pyLower d)) = false →
      kwHits HIGH_PRIORITY_KEYWORDS (pyStrip (pyLower d)) = [] →
      patHit HIGH_PATTERNS (pyStrip (pyLower d)) = false →
      kwHits LOW_PRIORITY_KEYWORDS (pyStrip (pyLower d)) ≠ [] →
      (analyze_priority d).1 = .low) ∧
    (kwHits EMERGENCY_KEYWORDS (pyStrip (pyLower d)) = [] →
      patHit EMERGENCY_PATTERNS (pyStrip (pyLower d)) = false →
      kwHits HIGH_PRIORITY_KEYWORDS (pyStrip (pyLower d)) = [] →
      patHit HIGH_PATTERNS (pyStrip (pyLower d)) = false →
      kwHits LOW_PRIORITY_KEYWORDS (pyStrip (pyLower d)) = [] →
      kwHits NORMAL_PRIORITY_KEYWORDS (pyStrip (pyLower d)) ≠ [] →
      (analyze_priority d).1 = .normal) ∧
    (kwHits EMERGENCY_KEYWORDS (pyStrip (pyLower d)) = [] →
      patHit EMERGENCY_PATTERNS (pyStrip (pyLower d)) = false →
      kwHits HIGH_PRIORITY_KEYWORDS (pyStrip (pyLower d)) = [] →
      patHit HIGH_PATTERNS (pyStrip (pyLower d)) = false →
      kwHits LOW_PRIORITY_KEYWORDS (pyStrip (pyLower d)) = [] →
      kwHits NORMAL_PRIORITY_KEYWORDS (pyStrip (pyLower d)) = [] →
      analyze_priority d =
        (.normal, "Standard priority - no urgent keywords detected", [])) := by
  unfold analyze_priority
  rw [if_neg hne]
  refine ⟨?_, ?_, ?_, ?_, ?_⟩
  · rintro (he | hp)
    · rw [if_pos he]
    · obtain ⟨p, hp⟩ := patHit_true_exists hp
      by_cases he : kwHits EMERGENCY_KEYWORDS (pyStrip (pyLower d)) ≠ []
      · rw [if_pos he]
      · rw [if_neg he, hp]
  · intro he hp hh
    have hp2 : EMERGENCY_PATTERNS.find? (fun p => reSearchPat p (pyStrip (pyLower d))) = none :=
      find?_eq_none_of_patHit_false hp
    rw [if_neg (by simp [he]), hp2]
    rcases hh with hh | hh
    · rw [if_pos hh]
    · obtain ⟨p, hp3⟩ := patHit_true_exists hh
      by_cases hk : kwHits HIGH_PRIORITY_KEYWORDS (pyStrip (pyLower d)) ≠ []
      · rw [if_pos hk]
      · rw [if_neg hk, hp3]
  · intro he hp hh hq hl
    have hp2 : EMERGENCY_PATTERNS.find? (fun p => reSearchPat p (pyStrip (pyLower d))) = none :=
      find?_eq_none_of_patHit_false hp
    have hq2 : HIGH_PATTERNS.find? (fun p => reSearchPat p (pyStrip (pyLower d))) = none :=
      find?_eq_none_of_patHit_false hq
    rw [if_neg (by simp [he]), hp2, if_neg (by simp [hh]), hq2, if_pos hl]
  · intro he hp hh hq hl hn
    have hp2 : EMERGENCY_PATTERNS.find? (fun p => reSearchPat p (pyStrip (pyLower d))) = none :=
      find?_eq_none_of_patHit_false hp
    have hq2 : HIGH_PATTERNS.find? (fun p => reSearchPat p (pyStrip (pyLower d))) = none :=
      find?_eq_none_of_patHit_false hq
    rw [if_neg (by simp [he]), hp2, if_neg (by simp [hh]), hq2, if_neg (by simp [hl]),
      if_pos hn]
  · intro he hp hh hq hl hn
    have hp2 : EMERGENCY_PATTERNS.find? (fun p => reSearchPat p (pyStrip (pyLower d))) = none :=
      find?_eq_none_of_patHit_false hp
    have hq2 : HIGH_PATTERNS.find? (fun p => reSearchPat p (pyStrip (pyLower d))) = none :=
      find?_eq_none_of_patHit_false hq
    rw [if_neg (by simp [he]), hp2, if_neg (by simp [hh]), hq2, if_neg (by simp [hl]),
      if_neg (by simp [hn])]

/-- C3 (witness): on "checkup and microchip" no EMERGENCY or HIGH table
hits, the LOW table does, and the classifier returns LOW. -/
theorem analyze_priority_scan_order_witness :
    (kwHits EMERGENCY_KEYWORDS (pyStrip (pyLower "checkup and microchip")) = [] ∧
     patHit EMERGENCY_PATTERNS (pyStrip (pyLower "checkup and microchip")) = false ∧
     kwHits HIGH_PRIORITY_KEYWORDS (pyStrip (pyLower "checkup and microchip")) = [] ∧
     patHit HIGH_PATTERNS (pyStrip (pyLower "checkup and microchip")) = false ∧
     kwHits LOW_PRIORITY_KEYWORDS (pyStrip (pyLower "checkup and microchip")) ≠ []) ∧
    (analyze_priority "checkup and microchip").1 = .low :=
  ⟨⟨by decide, by decide, by decide, by decide, by decide⟩,
   (analyze_priority_scan_order "checkup and microchip" (by decide)).2.2.1
     (by decide) (by decide) (by decide) (by decide) (by decide)⟩

/-- Folding `max` from any seed equals `max` of the list maximum and the
seed. -/
theorem foldr_max_eq (l : List Nat) (a : Nat) :
    l.foldr max a = max (listMax l) a := by
  induction l with
  | nil => simp [listMax]
  | cons x l ih =>
    unfold listMax
    rw [List.foldr_cons, List.foldr_cons, ih]
    unfold listMax
    rw [Nat.max_assoc]

/-- The list maximum of an appended singleton. -/
theorem listMax_append (l : List Nat) (a : Nat) :
    listMax (l ++ [a]) = max (listMax l) a := by
  unfold listMax
  rw [List.foldr_append, List.foldr_cons, List.foldr_nil, foldr_max_eq]
  unfold listMax
  rw [Nat.max_zero a]

/-- `nextQueueNumber` is the successor of the open-cohort maximum. -/
theorem nextQueueNumber_eq (db : List ECase) :
    nextQueueNumber db = (stateMax db).map (fun n => n + 1) := by
  unfold nextQueueNumber stateMax
  by_cases h : db.filter isOpenCase = []
  · rw [if_pos h, if_pos h]; rfl
  · rw [if_neg h, if_neg h]
    by_cases h2 : (db.filter isOpenCase).filterMap (fun c => c.queue_number) = []
    · rw [if_pos h2, if_pos h2]; rfl
    · rw [if_neg h2, if_neg h2]; rfl

/-- One enqueue step from a well-formed open cohort with maximum `k`: the
fresh case is appended with queue number `k + 1`, and the cohort maximum
becomes `k + 1`. -/
theorem enqueue_step (db : List ECase) (k : Nat) (c : ECase)
    (hdb : stateMax db = some k) (hq : c.queue_number = none) (hs : c.status = .waiting) :
    enqueueCase db c = some (db ++ [{ c with queue_number := some (k + 1) }], k + 1) ∧
    stateMax (db ++ [{ c with queue_number := some (k + 1) }]) = some (k + 1) := by
  have hfal : queueNumberFalsy c = true := by simp [queueNumberFalsy, hq]
  have hopen : isOpenCase { c with queue_number := some (k + 1) } = true := by
    simp [isOpenCase, hs]
  have happ : (db ++ [{ c with queue_number := some (k + 1) }]).filter isOpenCase
      = db.filter isOpenCase ++ [{ c with queue_number := some (k + 1) }] := by
    simp [List.filter_append, hopen]
  have hqapp : ((db ++ [{ c with queue_number := some (k + 1) }]).filter isOpenCase).filterMap
        (fun x : ECase => x.queue_number)
      = (db.filter isOpenCase).filterMap (fun x : ECase => x.queue_number) ++ [k + 1] := by
    rw [happ]; simp [List.filterMap_append]
  refine ⟨by simp [enqueueCase, hfal, nextQueueNumber_eq, hdb], ?_⟩
  have hne : (db ++ [{ c with queue_number := some (k + 1) }]).filter isOpenCase ≠ [] := by
    rw [happ]; simp
  unfold stateMax
  rw [if_neg hne, hqapp]
  rw [if_neg (by simp), listMax_append]
  unfold stateMax at hdb
  by_cases h : db.filter isOpenCase = []
  · rw [if_pos h] at hdb
    have hk : k = 0 := by simpa using hdb.symm
    subst hk
    simp [h, listMax]
  · rw [if_neg h] at hdb
    by_cases h2 : (db.filter isOpenCase).filterMap (fun c => c.queue_number) = []
    · rw [if_pos h2] at hdb; exact absurd hdb (by simp)
    · rw [if_neg h2] at hdb
      have hk : listMax ((db.filter isOpenCase).filterMap (fun c => c.queue_number)) = k := by
        simpa using hdb
      rw [hk, Nat.max_eq_right (Nat.le_succ k)]

/-- Enqueueing fresh cases from a cohort with maximum `k` assigns exactly
the numbers `k+1, k+2, …` in call order. -/
theorem enqueueSeq_range (cs : List ECase) :
    ∀ db k, stateMax db = some k →
      (∀ c ∈ cs, c.queue_number = none ∧ c.status = .waiting) →
      ∃ db2, enqueueSeq db cs = some (db2, List.range' (k + 1) cs.length) := by
  induction cs with
  | nil => intro db k _ _; exact ⟨db, by simp [enqueueSeq]⟩
  | cons c cs ih =>
    intro db k hdb hall
    obtain ⟨h1, h2⟩ := hall c (List.mem_cons_self c cs)
    obtain ⟨henq, hmax⟩ := enqueue_step db k c hdb h1 h2
    obtain ⟨db2, hseq⟩ :=
      ih (db ++ [{ c with queue_number := some (k + 1) }]) (k + 1) hmax
        (fun x hx => hall x (List.mem_cons_of_mem c hx))
    refine ⟨db2, ?_⟩
    simp only [enqueueSeq, henq, hseq, List.length_cons]
    rw [List.range'_succ]

/-- C5: `enqueue` assigns `(max open queue number) + 1`, defaulting to 1,
so a sequence of `N` enqueues of fresh WAITING cases starting from an empty
open cohort is numbered exactly `1..N` in call order. -/
theorem enqueue_numbers_consecutive (db : List ECase)
    (hopen : db.filter isOpenCase = [])
    (cs : List ECase)
    (hfresh : ∀ c ∈ cs, c.queue_number = none ∧ c.status = .waiting) :
    ∃ db2, enqueueSeq db cs = some (db2, List.range' 1 cs.length) := by
  have h : stateMax db = some 0 := by simp [stateMax, hopen]
  simpa using enqueueSeq_range cs db 0 h hfresh

/-- C5 (witness): three fresh cases enqueued into an empty table receive the
queue numbers 1, 2, 3. -/
theorem enqueue_numbers_consecutive_witness :
    (([] : List ECase).filter isOpenCase = []) ∧
    (∃ db2, enqueueSeq []
        [{ id := 1, severity := .critical, reported_at := 3 },
         { id := 2, severity := .mild, reported_at := 4 },
         { id := 3, severity := .moderate, reported_at := 5 }] =
      some (db2, List.range' 1 3)) :=
  ⟨rfl,
   enqueue_numbers_consecutive [] rfl
     [{ id := 1, severity := .critical, reported_at := 3 },
      { id := 2, severity := .mild, reported_at := 4 },
      { id := 3, severity := .moderate, reported_at := 5 }]
     (by decide)⟩

/-- C10 (witness): re-checking-in an appointment holding token 3 leaves the
table and the queue row exactly as they were. -/
theorem check_in_idempotent_witness :
    check_in [{ id := 1, date := 0, status := .confirmed,
                token_number := some 3, check_in_time := some 9 }]
        { current_token := 5, last_called_token := 2 } 1 11 0 =
      some ([{ id := 1, date := 0, status := .confirmed,
               token_number := some 3, check_in_time := some 9 }],
            { current_token := 5, last_called_token := 2 }) := by
  exact check_in_idempotent _ _ 1 11 0
    { id := 1, date := 0, status := .confirmed,
      token_number := some 3, check_in_time := some 9 } (by decide) (by decide)

end PetClinic
